import Mathlib

/-!
Shallow embedding of `hyperts/utils/plot.py` (HyperTS).

The module defines two renderers, `plot_plotly` (interactive backend) and
`plot_mpl` (static backend).  Both share the same pre-processing: coerce
`target_col` to a list, resolve `var_id` (name or index) to an integer index,
coerce `timestamp_col`, decide timestamp-free mode, select y-columns, and build
the x-axes.  We model pandas DataFrames as named columns of integer cells
(timestamps are also modelled as integers), numpy column indexing (including
negative indices) with `npIndex`, fallible operations with `Except PlotErr`,
and the rendered figures as explicit records.  The functions take the module
flags `enable_mpl` / `enable_plotly` as parameters: in the source they are
globals set by the try/except import blocks at lines 8-20, and a renderer that
touches an unavailable backend raises `NameError`, modelled by `PlotErr.nameErr`.
The Python functions end with `fig.show()` / `plt.show()` and fall off without
a `return` statement, so the value returned to the caller is `None`; the result
records therefore carry the displayed figure in `shown` and the Python return
value in `returned` (always `none`).
-/

/-- A pandas-style DataFrame: a list of named columns of integer-modelled cells. -/
structure DF where
  cols : List (String × List Int)
  deriving DecidableEq

/-- The column names, in order (`df.columns` / `tb.columns_values(df)`). -/
def DF.columns (df : DF) : List String := df.cols.map Prod.fst

/-- Single-column lookup `df[c]`; `none` models a pandas `KeyError`. -/
def DF.col (df : DF) (c : String) : Option (List Int) :=
  (df.cols.find? (fun p => p.1 == c)).map Prod.snd

/-- `len(df)`: the number of rows (length of the first column; 0 if empty). -/
def DF.len (df : DF) : Nat :=
  match df.cols with
  | [] => 0
  | c :: _ => c.2.length

/-- Multi-column selection `df[names]`; `none` models a pandas `KeyError`. -/
def DF.select (df : DF) (names : List String) : Option DF :=
  (names.mapM (fun n => (df.col n).map (fun v => (n, v)))).map DF.mk

/-- Numpy index semantics for a length-`n` axis: `0 ≤ i < n` is used directly,
`-n ≤ i < 0` wraps to `n + i`, anything else is an `IndexError`. -/
def npIndex (n : Nat) (i : Int) : Option Nat :=
  if 0 ≤ i ∧ i < (n : Int) then some i.toNat
  else if -(n : Int) ≤ i ∧ i < 0 then some (i + (n : Int)).toNat
  else none

/-- `df.values[:, i]` with numpy integer indexing over the columns. -/
def DF.valuesCol (df : DF) (i : Int) : Option (List Int) :=
  (npIndex df.cols.length i).bind (fun k => df.cols[k]?.map Prod.snd)

/-- `df.columns[i]` with numpy/pandas integer indexing. -/
def DF.columnAt (df : DF) (i : Int) : Option String :=
  (npIndex df.cols.length i).bind (fun k => df.cols[k]?.map Prod.fst)

/-- Toolbox `tb.columns_values(df)`. -/
def tb_columns_values (df : DF) : List String := df.columns

/-- Toolbox `tb.to_datetime(col)`: timestamps are already modelled as integers,
so parsing is the identity on the cell list. -/
def tb_to_datetime (c : List Int) : List Int := c

/-- Toolbox `tb.arange(a, b)`: the integer range `[a, b)`. -/
def tb_arange (a b : Nat) : List Int :=
  (List.range (b - a)).map (fun i => ((a + i : Nat) : Int))

/-- A `str` or `list` argument (used for `timestamp_col` and `target_col`). -/
inductive ColSpec where
  | one (s : String)
  | many (l : List String)
  deriving DecidableEq

/-- The `var_id` argument: an integer index or a target column name. -/
inductive VarId where
  | idx (i : Int)
  | name (s : String)
  deriving DecidableEq

/-- The exceptions the module can raise. -/
inductive PlotErr where
  | varIdNotIn (offending : String) (valid : List String)
  | keyErr (col : String)
  | nameErr (missing : String)
  | noneAttr
  | indexErr
  deriving DecidableEq

/-- The exception message; for `varIdNotIn` this is the f-string of line 71/260:
`f'{var_id} might not be target columns {target_col}.'`. -/
def PlotErr.message : PlotErr → String
  | .varIdNotIn s tcs => s ++ " might not be target columns " ++ toString tcs ++ "."
  | .keyErr c => "KeyError: " ++ c
  | .nameErr n => "NameError: name " ++ n ++ " is not defined"
  | .noneAttr => "AttributeError: NoneType object has no attribute values"
  | .indexErr => "IndexError"

/-- `needle` occurs as a contiguous substring of `hay`. -/
def substr (needle hay : String) : Prop :=
  ∃ l r, hay.toList = l ++ needle.toList ++ r

/-- Lines 65-66 / 254-255: `if not isinstance(target_col, list): target_col = [target_col]`. -/
def normTargetCol : ColSpec → List String
  | .one s => [s]
  | .many l => l

/-- Lines 73-74 / 262-263: `if isinstance(timestamp_col, list): timestamp_col = timestamp_col[0]`. -/
def normTimestampCol : ColSpec → Except PlotErr String
  | .one s => .ok s
  | .many [] => .error .indexErr
  | .many (t :: _) => .ok t

/-- Lines 68-71 / 257-260: a string `var_id` found in `target_col` becomes its
index, a string not found raises `ValueError`, an integer is used as-is. -/
def resolveVarId (tcs : List String) : VarId → Except PlotErr Int
  | .idx i => .ok i
  | .name s =>
    if s ∈ tcs then .ok ((tcs.indexOf s : Nat) : Int)
    else .error (.varIdNotIn s tcs)

/-- Turn a fallible lookup into the exception it raises in Python. -/
def getOr {α : Type} (o : Option α) (e : PlotErr) : Except PlotErr α :=
  match o with
  | some a => .ok a
  | none => .error e

/-- Line 79 / 268: `y_actual = actual[target_col] if actual is not None else None`. -/
def selActual (actual : Option DF) (tcs : List String) : Except PlotErr (Option DF) :=
  match actual with
  | none => .ok none
  | some a => (getOr (a.select tcs) (.keyErr "target_col")).map some

/-- The history-derived data: `X_train`, `y_train` and (plotly only)
`train_end_date`. -/
structure HistPart where
  X_train : List Int
  y_train : DF
  train_end_date : Option Int
  deriving DecidableEq

/-- The state after the shared pre-processing (lines 63-96 / 252-283). -/
structure PrepP where
  vid : Int
  tcs : List String
  tsc : String
  ts_free : Bool
  y_forecast : DF
  y_actual : Option DF
  hist : Option HistPart
  X_forecast : List Int
  deriving DecidableEq

/-- Lines 81-96 / 270-283: build `X_train`, `y_train`, `X_forecast` (and, when
`withTed` is set, the plotly-only `train_end_date = history[timestamp_col].iloc[-1]`). -/
def prepAxes (forecast : DF) (tsc : String) (tcs : List String) (ts_free : Bool)
    (history : Option DF) (include_history : Bool) (withTed : Bool) :
    Except PlotErr (Option HistPart × List Int) :=
  match history, include_history with
  | some hist_df, true => do
    let y_train ← getOr (hist_df.select tcs) (PlotErr.keyErr "target_col")
    if !ts_free then
      let h_ts ← getOr (hist_df.col tsc) (PlotErr.keyErr tsc)
      let f_ts ← getOr (forecast.col tsc) (PlotErr.keyErr tsc)
      if withTed then
        let ted ← getOr h_ts.getLast? PlotErr.indexErr
        pure (some ⟨tb_to_datetime h_ts, y_train, some ted⟩, tb_to_datetime f_ts)
      else
        pure (some ⟨tb_to_datetime h_ts, y_train, none⟩, tb_to_datetime f_ts)
    else
      pure (some ⟨tb_arange 0 hist_df.len, y_train, none⟩,
            tb_arange hist_df.len (hist_df.len + forecast.len))
  | _, _ =>
    if !ts_free then do
      let f_ts ← getOr (forecast.col tsc) (PlotErr.keyErr tsc)
      pure ((none : Option HistPart), tb_to_datetime f_ts)
    else
      pure ((none : Option HistPart), tb_arange 0 forecast.len)

/-- The shared pre-processing of both renderers (lines 63-96 / 252-283); the two
source copies differ only in that the plotly one also records `train_end_date`
(`withTed`). -/
def prepCommon (forecast : DF) (timestamp_col target_col : ColSpec) (var_id : VarId)
    (actual history : Option DF) (include_history : Bool) (withTed : Bool) :
    Except PlotErr PrepP := do
  let tcs := normTargetCol target_col
  let vid ← resolveVarId tcs var_id
  let tsc ← normTimestampCol timestamp_col
  let ts_free := !((tb_columns_values forecast).contains tsc)
  let y_forecast ← getOr (forecast.select tcs) (PlotErr.keyErr "target_col")
  let y_actual ← selActual actual tcs
  let ax ← prepAxes forecast tsc tcs ts_free history include_history withTed
  pure ⟨vid, tcs, tsc, ts_free, y_forecast, y_actual, ax.1, ax.2⟩

/-- Pre-processing of `plot_plotly` (lines 63-96). -/
def plotlyPrep (forecast : DF) (timestamp_col target_col : ColSpec) (var_id : VarId)
    (actual history : Option DF) (include_history : Bool) : Except PlotErr PrepP :=
  prepCommon forecast timestamp_col target_col var_id actual history include_history true

/-- Pre-processing of `plot_mpl` (lines 252-283). -/
def mplPrep (forecast : DF) (timestamp_col target_col : ColSpec) (var_id : VarId)
    (actual history : Option DF) (include_history : Bool) : Except PlotErr PrepP :=
  prepCommon forecast timestamp_col target_col var_id actual history include_history false

/-- A plotly `go.Scatter` trace; `fill` records the band fill of the upper bound. -/
structure Trace where
  name : String
  x : List Int
  y : List Int
  fill : Bool
  deriving DecidableEq

/-- The vertical reference line shape (`x0 = x1 = train_end_date`). -/
structure VLine where
  x0 : Int
  deriving DecidableEq

/-- A layout text marker at a given x position. -/
structure Annot where
  x : Int
  text : String
  deriving DecidableEq

/-- The interactive figure as built by `plot_plotly`. -/
structure GoFigure where
  traces : List Trace
  shapes : List VLine
  annots : List Annot
  xTitle : String
  yTitle : String
  title : String
  rangeslider : Bool
  deriving DecidableEq

/-- The observable outcome of `plot_plotly`: the figure displayed by
`fig.show()` and the value returned to the caller. -/
structure PlotlyResult where
  shown : GoFigure
  returned : Option GoFigure
  deriving DecidableEq

/-- Lines 101-128: the two interval traces when `forecast_interval` is supplied
and `show_forecast_interval` is set; `upper_forecast, lower_forecast =
forecast_interval[0], forecast_interval[1]`. -/
def intervalTraces (p : PrepP) (forecast_interval : Option (DF × DF))
    (show_forecast_interval : Bool) : Except PlotErr (List Trace) :=
  match forecast_interval, show_forecast_interval with
  | some fi, true => do
    let upper_forecast := fi.1
    let lower_forecast := fi.2
    let lowY ← getOr (lower_forecast.valuesCol p.vid) PlotErr.indexErr
    let upY ← getOr (upper_forecast.valuesCol p.vid) PlotErr.indexErr
    pure [⟨ "Lower Bound", p.X_forecast, lowY, false⟩,
          ⟨ "Upper Bound", p.X_forecast, upY, true⟩]
  | _, _ => pure []

/-- Lines 130-138: the trace of actual values, when `actual` is supplied. -/
def actualTraces (p : PrepP) (actual : Option DF) : Except PlotErr (List Trace) :=
  match actual with
  | some _ => do
    let ya ← getOr p.y_actual PlotErr.noneAttr
    let ay ← getOr (ya.valuesCol p.vid) PlotErr.indexErr
    pure [⟨ "Actual", p.X_forecast, ay, false⟩]
  | none => pure []

/-- Lines 140-147: the forecast trace, always drawn. -/
def forecastTrace (p : PrepP) : Except PlotErr Trace := do
  let fy ← getOr (p.y_forecast.valuesCol p.vid) PlotErr.indexErr
  pure ⟨ "Forecast", p.X_forecast, fy, false⟩

/-- Lines 149-157: the historical trace, guarded by
`history is not None and include_history`. -/
def historyTraces (p : PrepP) (history : Option DF) (include_history : Bool) :
    Except PlotErr (List Trace) :=
  match history, include_history with
  | some _, true => do
    let hp ← getOr p.hist PlotErr.noneAttr
    let hy ← getOr (hp.y_train.valuesCol p.vid) PlotErr.indexErr
    pure [⟨ "Historical", hp.X_train, hy, false⟩]
  | _, _ => pure []

/-- Lines 159-186: the vertical line and its text at `train_end_date`, guarded
by `train_end_date is not None and include_history`. -/
def refLineParts (p : PrepP) (include_history : Bool) : List VLine × List Annot :=
  match (match p.hist with | some hp => hp.train_end_date | none => none),
        include_history with
  | some d, true => ([⟨d⟩], [⟨d, "Observed End Date"⟩])
  | _, _ => ([], [])

/-- Lines 98-202: figure construction of `plot_plotly` after pre-processing. -/
def buildPlotlyFigure (p : PrepP) (actual history : Option DF)
    (forecast_interval : Option (DF × DF))
    (show_forecast_interval include_history : Bool) :
    Except PlotErr PlotlyResult := do
  let ti ← intervalTraces p forecast_interval show_forecast_interval
  let ta ← actualTraces p actual
  let tf ← forecastTrace p
  let th ← historyTraces p history include_history
  let sa := refLineParts p include_history
  let yt ← getOr (p.y_forecast.columnAt p.vid) PlotErr.indexErr
  pure ⟨⟨ti ++ ta ++ [tf] ++ th, sa.1, sa.2, "Date", yt,
        (if actual.isSome then "Actual vs Forecast" else "Forecast Curve"), true⟩,
        none⟩

/-- `plot_plotly` (lines 22-202).  `fig = go.Figure()` (line 98) raises
`NameError` on `go` when plotly failed to import, and `plt.set_loglevel` (line
99) raises `NameError` on `plt` when matplotlib failed to import.  The function
displays the figure and returns `None`. -/
def plot_plotly (enable_mpl enable_plotly : Bool) (forecast : DF)
    (timestamp_col target_col : ColSpec) (var_id : VarId) (actual history : Option DF)
    (forecast_interval : Option (DF × DF))
    (show_forecast_interval include_history : Bool) :
    Except PlotErr PlotlyResult := do
  let p ← plotlyPrep forecast timestamp_col target_col var_id actual history include_history
  if !enable_plotly then throw (PlotErr.nameErr "go")
  if !enable_mpl then throw (PlotErr.nameErr "plt")
  buildPlotlyFigure p actual history forecast_interval show_forecast_interval include_history

/-- A `plt.plot` line. -/
structure MplLine where
  x : List Int
  y : List Int
  label : String
  deriving DecidableEq

/-- A `plt.fill_between` band. -/
structure Band where
  x : List Int
  lower : List Int
  upper : List Int
  deriving DecidableEq

/-- The static figure as built by `plot_mpl`. -/
structure MplFigure where
  figsize : Int × Int
  lines : List MplLine
  bands : List Band
  title : String
  ylabel : String
  xlabel : String
  grid : Bool
  deriving DecidableEq

/-- The observable outcome of `plot_mpl`. -/
structure MplResult where
  shown : MplFigure
  returned : Option MplFigure
  deriving DecidableEq

/-- Lines 287-291: the historical line, guarded only by `include_history`; with
`history = None` the access `y_train.values` raises `AttributeError`. -/
def mplHistoryLines (p : PrepP) (include_history : Bool) :
    Except PlotErr (List MplLine) :=
  if include_history then do
    let hp ← getOr p.hist PlotErr.noneAttr
    let hy ← getOr (hp.y_train.valuesCol p.vid) PlotErr.indexErr
    pure [⟨hp.X_train, hy, "Historical"⟩]
  else pure []

/-- Lines 293-296: the forecast line, always drawn. -/
def mplForecastLine (p : PrepP) : Except PlotErr MplLine := do
  let fy ← getOr (p.y_forecast.valuesCol p.vid) PlotErr.indexErr
  pure ⟨p.X_forecast, fy, "Forecast"⟩

/-- Lines 298-303: the line of actual values, when `actual` is supplied. -/
def mplActualLines (p : PrepP) (actual : Option DF) : Except PlotErr (List MplLine) :=
  match actual with
  | some _ => do
    let ya ← getOr p.y_actual PlotErr.noneAttr
    let ay ← getOr (ya.valuesCol p.vid) PlotErr.indexErr
    pure [⟨p.X_forecast, ay, "Actual"⟩]
  | none => pure []

/-- Lines 305-313: the uncertainty band, when `forecast_interval` is supplied
and `show_forecast_interval` is set. -/
def mplBands (p : PrepP) (forecast_interval : Option (DF × DF))
    (show_forecast_interval : Bool) : Except PlotErr (List Band) :=
  match forecast_interval, show_forecast_interval with
  | some fi, true => do
    let upper_forecast := fi.1
    let lower_forecast := fi.2
    let lowY ← getOr (lower_forecast.valuesCol p.vid) PlotErr.indexErr
    let upY ← getOr (upper_forecast.valuesCol p.vid) PlotErr.indexErr
    pure [⟨p.X_forecast, lowY, upY⟩]
  | _, _ => pure []

/-- Lines 285-320: figure construction of `plot_mpl` after pre-processing. -/
def buildMplFigure (p : PrepP) (actual : Option DF)
    (forecast_interval : Option (DF × DF))
    (show_forecast_interval include_history : Bool)
    (figsize : Option (Int × Int)) (grid : Bool) : Except PlotErr MplResult := do
  let lh ← mplHistoryLines p include_history
  let lf ← mplForecastLine p
  let la ← mplActualLines p actual
  let bs ← mplBands p forecast_interval show_forecast_interval
  let yl ← getOr (p.y_forecast.columnAt p.vid) PlotErr.indexErr
  pure ⟨⟨figsize.getD ((16 : Int), (6 : Int)),
        lh ++ [lf] ++ la, bs,
        (if actual.isSome then "Actual vs Forecast" else "Forecast Curve"),
        yl, "Date", grid⟩, none⟩

/-- `plot_mpl` (lines 205-320).  `plt.figure` (line 285) raises `NameError` on
`plt` when matplotlib failed to import; plotly is never touched.  The function
displays the figure and returns `None`. -/
def plot_mpl (enable_mpl : Bool) (forecast : DF) (timestamp_col target_col : ColSpec)
    (var_id : VarId) (actual history : Option DF)
    (forecast_interval : Option (DF × DF))
    (show_forecast_interval include_history : Bool)
    (figsize : Option (Int × Int)) (grid : Bool) : Except PlotErr MplResult := do
  let p ← mplPrep forecast timestamp_col target_col var_id actual history include_history
  if !enable_mpl then throw (PlotErr.nameErr "plt")
  buildMplFigure p actual forecast_interval show_forecast_interval include_history figsize grid

/-- Lines 8-20: the errors logged at module import when a backend is missing. -/
def moduleInitLogs (mpl_import_ok plotly_import_ok : Bool) : List String :=
  (if mpl_import_ok then [] else ["Importing matplotlib failed. Plotting will not work."]) ++
  (if plotly_import_ok then [] else ["Importing plotly failed. Interactive plots will not work."])

/-- The (first) trace with the given legend name. -/
def GoFigure.traceNamed (f : GoFigure) (n : String) : Option Trace :=
  f.traces.find? (fun t => t.name == n)

/-- The (first) line with the given legend label. -/
def MplFigure.lineLabeled (f : MplFigure) (lab : String) : Option MplLine :=
  f.lines.find? (fun t => t.label == lab)

/-! Concrete tables used to exercise the renderers. -/

/-- A timestamp-free forecast table with 5 rows and target column `y`. -/
def exF : DF := ⟨[("y", [10, 20, 30, 40, 50])]⟩

/-- A timestamp-free history table with 3 rows. -/
def exH : DF := ⟨[("y", [1, 2, 3])]⟩

/-- A two-target timestamp-free forecast table. -/
def exF2 : DF := ⟨[("y1", [1, 2]), ("y2", [3, 4])]⟩

/-- A forecast table carrying its timestamp column `ts`. -/
def exFts : DF := ⟨[("ts", [100, 101, 102, 103, 104]), ("y", [10, 20, 30, 40, 50])]⟩

/-- A history table carrying its timestamp column `ts`. -/
def exHts : DF := ⟨[("ts", [90, 91, 92]), ("y", [1, 2, 3])]⟩

/-- Upper interval bounds aligned with `exF`. -/
def exU : DF := ⟨[("y", [11, 21, 31, 41, 51])]⟩

/-- Lower interval bounds aligned with `exF`. -/
def exL : DF := ⟨[("y", [9, 19, 29, 39, 49])]⟩

/-- Fallback figure used when extracting a concrete successful result. -/
def figDefault : PlotlyResult := ⟨⟨[], [], [], "", "", "", false⟩, none⟩

/-- Fallback static figure used when extracting a concrete successful result. -/
def mplFigDefault : MplResult := ⟨⟨(0, 0), [], [], "", "", "", false⟩, none⟩

/-- Fallback pre-processing state. -/
def prepDefault : PrepP := ⟨0, [], "", false, ⟨[]⟩, none, none, []⟩

/-- The result of a timestamp-free interactive render with history included. -/
def rC1 : PlotlyResult :=
  (plot_plotly true true exF (ColSpec.one "ts") (ColSpec.one "y") (VarId.idx 0)
    none (some exH) none false true).toOption.getD figDefault

/-- The result of a timestamp-free static render with history included. -/
def rC1m : MplResult :=
  (plot_mpl true exF (ColSpec.one "ts") (ColSpec.one "y") (VarId.idx 0)
    none (some exH) none false true none true).toOption.getD mplFigDefault

/-- The pre-processing state of a render selecting target `y2` by name. -/
def pC2 : PrepP :=
  (plotlyPrep exF2 (ColSpec.one "ts") (ColSpec.many ["y1", "y2"]) (VarId.name "y2")
    none none false).toOption.getD prepDefault

/-- The result of an interactive render with a requested uncertainty band. -/
def rC4 : PlotlyResult :=
  (plot_plotly true true exF (ColSpec.one "ts") (ColSpec.one "y") (VarId.idx 0)
    none none (some (exU, exL)) true false).toOption.getD figDefault

/-- The result of a static render with a requested uncertainty band. -/
def rC4m : MplResult :=
  (plot_mpl true exF (ColSpec.one "ts") (ColSpec.one "y") (VarId.idx 0)
    none none (some (exU, exL)) true false none true).toOption.getD mplFigDefault

/-- The result of an interactive render with actual values supplied. -/
def rC5 : PlotlyResult :=
  (plot_plotly true true exF (ColSpec.one "ts") (ColSpec.one "y") (VarId.idx 0)
    (some exF) none none false false).toOption.getD figDefault

/-- The result of a dated interactive render with history included. -/
def rC6 : PlotlyResult :=
  (plot_plotly true true exFts (ColSpec.one "ts") (ColSpec.one "y") (VarId.idx 0)
    none (some exHts) none false true).toOption.getD figDefault

/-! Inversion helpers for `Except` computations. -/

/-- Successful bind: the first computation succeeded and the continuation
succeeded on its value. -/
theorem bind_ok_inv {α β : Type} {e : Except PlotErr α} {k : α → Except PlotErr β} {b : β}
    (h : e >>= k = Except.ok b) : ∃ x, e = Except.ok x ∧ k x = Except.ok b := by
  cases e with
  | error err => exact Except.noConfusion h
  | ok x => exact ⟨x, rfl, h⟩

/-- Successful `getOr`: the underlying lookup produced the value. -/
theorem getOr_ok_inv {α : Type} {o : Option α} {e : PlotErr} {x : α}
    (h : getOr o e = Except.ok x) : o = some x := by
  cases o with
  | none => exact Except.noConfusion h
  | some a => injection h with h; rw [h]

/-- Successful `pure`. -/
theorem pure_ok_inv {α : Type} {a b : α} (h : (pure a : Except PlotErr α) = Except.ok b) :
    a = b := Except.ok.inj h

/-- Characterization of a successful `prepAxes` run: the x-axes (and, for the
plotly variant, the boundary marker) in each branch. -/
theorem prepAxes_spec {forecast : DF} {tsc : String} {tcs : List String} {ts_free : Bool}
    {history : Option DF} {include_history withTed : Bool} {res : Option HistPart × List Int}
    (h : prepAxes forecast tsc tcs ts_free history include_history withTed = Except.ok res) :
    ((history = none ∨ include_history = false) →
       res.1 = none ∧ (ts_free = true → res.2 = tb_arange 0 forecast.len)) ∧
    (∀ hdf, history = some hdf → include_history = true →
       (ts_free = true → ∃ ytr, res = (some ⟨tb_arange 0 hdf.len, ytr, none⟩,
            tb_arange hdf.len (hdf.len + forecast.len))) ∧
       (ts_free = false → ∃ h_ts ytr, hdf.col tsc = some h_ts ∧
          (withTed = true → ∃ d, h_ts.getLast? = some d ∧
             res.1 = some ⟨tb_to_datetime h_ts, ytr, some d⟩) ∧
          (withTed = false → res.1 = some ⟨tb_to_datetime h_ts, ytr, none⟩))) := by
  cases history with
  | none =>
    refine ⟨?_, ?_⟩
    · intro _
      cases include_history with
      | false =>
        cases ts_free with
        | false =>
          obtain ⟨f_ts, hf, h⟩ := bind_ok_inv h
          rw [← pure_ok_inv h]
          exact ⟨rfl, fun hc => Bool.noConfusion hc⟩
        | true =>
          rw [← pure_ok_inv h]
          exact ⟨rfl, fun _ => rfl⟩
      | true =>
        cases ts_free with
        | false =>
          obtain ⟨f_ts, hf, h⟩ := bind_ok_inv h
          rw [← pure_ok_inv h]
          exact ⟨rfl, fun hc => Bool.noConfusion hc⟩
        | true =>
          rw [← pure_ok_inv h]
          exact ⟨rfl, fun _ => rfl⟩
    · intro hdf heq
      exact Option.noConfusion heq
  | some hdf0 =>
    cases include_history with
    | false =>
      refine ⟨?_, ?_⟩
      · intro _
        cases ts_free with
        | false =>
          obtain ⟨f_ts, hf, h⟩ := bind_ok_inv h
          rw [← pure_ok_inv h]
          exact ⟨rfl, fun hc => Bool.noConfusion hc⟩
        | true =>
          rw [← pure_ok_inv h]
          exact ⟨rfl, fun _ => rfl⟩
      · intro hdf heq hinc
        exact Bool.noConfusion hinc
    | true =>
      obtain ⟨ytr, hsel, h⟩ := bind_ok_inv h
      refine ⟨?_, ?_⟩
      · intro hc
        rcases hc with hc | hc
        · exact Option.noConfusion hc
        · exact Bool.noConfusion hc
      · intro hdf heq hinc
        injection heq with heq
        subst heq
        cases ts_free with
        | true =>
          refine ⟨fun _ => ⟨ytr, (pure_ok_inv h).symm⟩, fun hc => Bool.noConfusion hc⟩
        | false =>
          obtain ⟨h_ts, hh, h⟩ := bind_ok_inv h
          obtain ⟨f_ts, hf, h⟩ := bind_ok_inv h
          refine ⟨fun hc => Bool.noConfusion hc, fun _ => ?_⟩
          cases withTed with
          | true =>
            obtain ⟨d, hd, h⟩ := bind_ok_inv h
            refine ⟨h_ts, ytr, getOr_ok_inv hh, fun _ => ⟨d, getOr_ok_inv hd, ?_⟩,
                    fun hc => Bool.noConfusion hc⟩
            rw [← pure_ok_inv h]
          | false =>
            refine ⟨h_ts, ytr, getOr_ok_inv hh, fun hc => Bool.noConfusion hc, fun _ => ?_⟩
            rw [← pure_ok_inv h]

/-- Characterization of a successful shared pre-processing run. -/
theorem prepCommon_spec {forecast : DF} {timestamp_col target_col : ColSpec} {var_id : VarId}
    {actual history : Option DF} {include_history withTed : Bool} {p : PrepP}
    (h : prepCommon forecast timestamp_col target_col var_id actual history include_history
        withTed = Except.ok p) :
    resolveVarId (normTargetCol target_col) var_id = Except.ok p.vid ∧
    normTimestampCol timestamp_col = Except.ok p.tsc ∧
    p.tcs = normTargetCol target_col ∧
    p.ts_free = !((tb_columns_values forecast).contains p.tsc) ∧
    forecast.select (normTargetCol target_col) = some p.y_forecast ∧
    selActual actual (normTargetCol target_col) = Except.ok p.y_actual ∧
    prepAxes forecast p.tsc (normTargetCol target_col) p.ts_free history include_history
      withTed = Except.ok (p.hist, p.X_forecast) := by
  unfold prepCommon at h
  obtain ⟨vid, hv, h⟩ := bind_ok_inv h
  obtain ⟨tsc, hts, h⟩ := bind_ok_inv h
  obtain ⟨yf, hyf, h⟩ := bind_ok_inv h
  obtain ⟨ya, hya, h⟩ := bind_ok_inv h
  obtain ⟨ax, hax, h⟩ := bind_ok_inv h
  have hpe := pure_ok_inv h
  subst hpe
  exact ⟨hv, hts, rfl, rfl, getOr_ok_inv hyf, hya, by rw [Prod.mk.eta]; exact hax⟩

/-- A successful interactive render means: pre-processing succeeded, both
backend globals were available (lines 98-99), and the figure was built. -/
theorem plot_plotly_ok_parts {enable_mpl enable_plotly : Bool} {forecast : DF}
    {timestamp_col target_col : ColSpec} {var_id : VarId} {actual history : Option DF}
    {forecast_interval : Option (DF × DF)} {show_forecast_interval include_history : Bool}
    {r : PlotlyResult}
    (h : plot_plotly enable_mpl enable_plotly forecast timestamp_col target_col var_id
        actual history forecast_interval show_forecast_interval include_history
        = Except.ok r) :
    ∃ p, plotlyPrep forecast timestamp_col target_col var_id actual history include_history
        = Except.ok p ∧ enable_plotly = true ∧ enable_mpl = true ∧
      buildPlotlyFigure p actual history forecast_interval show_forecast_interval
        include_history = Except.ok r := by
  unfold plot_plotly at h
  obtain ⟨p, hp, h⟩ := bind_ok_inv h
  cases enable_plotly with
  | false => exact Except.noConfusion h
  | true =>
    cases enable_mpl with
    | false => exact Except.noConfusion h
    | true => exact ⟨p, hp, rfl, rfl, h⟩

/-- A successful static render means: pre-processing succeeded, matplotlib was
available (line 285), and the figure was built. -/
theorem plot_mpl_ok_parts {enable_mpl : Bool} {forecast : DF}
    {timestamp_col target_col : ColSpec} {var_id : VarId} {actual history : Option DF}
    {forecast_interval : Option (DF × DF)} {show_forecast_interval include_history : Bool}
    {figsize : Option (Int × Int)} {grid : Bool} {r : MplResult}
    (h : plot_mpl enable_mpl forecast timestamp_col target_col var_id actual history
        forecast_interval show_forecast_interval include_history figsize grid
        = Except.ok r) :
    ∃ p, mplPrep forecast timestamp_col target_col var_id actual history include_history
        = Except.ok p ∧ enable_mpl = true ∧
      buildMplFigure p actual forecast_interval show_forecast_interval include_history
        figsize grid = Except.ok r := by
  unfold plot_mpl at h
  obtain ⟨p, hp, h⟩ := bind_ok_inv h
  cases enable_mpl with
  | false => exact Except.noConfusion h
  | true => exact ⟨p, hp, rfl, h⟩

/-- Decomposition of a successfully built interactive figure. -/
theorem buildPlotlyFigure_spec {p : PrepP} {actual history : Option DF}
    {forecast_interval : Option (DF × DF)} {show_forecast_interval include_history : Bool}
    {r : PlotlyResult}
    (h : buildPlotlyFigure p actual history forecast_interval show_forecast_interval
        include_history = Except.ok r) :
    ∃ ti ta tf th yt,
      intervalTraces p forecast_interval show_forecast_interval = Except.ok ti ∧
      actualTraces p actual = Except.ok ta ∧
      forecastTrace p = Except.ok tf ∧
      historyTraces p history include_history = Except.ok th ∧
      p.y_forecast.columnAt p.vid = some yt ∧
      r = ⟨⟨ti ++ ta ++ [tf] ++ th, (refLineParts p include_history).1,
           (refLineParts p include_history).2, "Date", yt,
           (if actual.isSome then "Actual vs Forecast" else "Forecast Curve"), true⟩,
           none⟩ := by
  unfold buildPlotlyFigure at h
  obtain ⟨ti, hI, h⟩ := bind_ok_inv h
  obtain ⟨ta, hA, h⟩ := bind_ok_inv h
  obtain ⟨tf, hF, h⟩ := bind_ok_inv h
  obtain ⟨th, hH, h⟩ := bind_ok_inv h
  obtain ⟨yt, hyt, h⟩ := bind_ok_inv h
  exact ⟨ti, ta, tf, th, yt, hI, hA, hF, hH, getOr_ok_inv hyt, (pure_ok_inv h).symm⟩

/-- Decomposition of a successfully built static figure. -/
theorem buildMplFigure_spec {p : PrepP} {actual : Option DF}
    {forecast_interval : Option (DF × DF)} {show_forecast_interval include_history : Bool}
    {figsize : Option (Int × Int)} {grid : Bool} {r : MplResult}
    (h : buildMplFigure p actual forecast_interval show_forecast_interval include_history
        figsize grid = Except.ok r) :
    ∃ lh lf la bs yl,
      mplHistoryLines p include_history = Except.ok lh ∧
      mplForecastLine p = Except.ok lf ∧
      mplActualLines p actual = Except.ok la ∧
      mplBands p forecast_interval show_forecast_interval = Except.ok bs ∧
      p.y_forecast.columnAt p.vid = some yl ∧
      r = ⟨⟨figsize.getD ((16 : Int), (6 : Int)),
           lh ++ [lf] ++ la, bs,
           (if actual.isSome then "Actual vs Forecast" else "Forecast Curve"),
           yl, "Date", grid⟩, none⟩ := by
  unfold buildMplFigure at h
  obtain ⟨lh, hH, h⟩ := bind_ok_inv h
  obtain ⟨lf, hF, h⟩ := bind_ok_inv h
  obtain ⟨la, hA, h⟩ := bind_ok_inv h
  obtain ⟨bs, hB, h⟩ := bind_ok_inv h
  obtain ⟨yl, hyl, h⟩ := bind_ok_inv h
  exact ⟨lh, lf, la, bs, yl, hH, hF, hA, hB, getOr_ok_inv hyl, (pure_ok_inv h).symm⟩

/-- With `show_forecast_interval` left false, no interval traces are built. -/
theorem intervalTraces_ok_off {p : PrepP} {fi : Option (DF × DF)} :
    intervalTraces p fi false = Except.ok [] := by
  cases fi <;> rfl

/-- With no `forecast_interval`, no interval traces are built. -/
theorem intervalTraces_ok_none {p : PrepP} {sfi : Bool} :
    intervalTraces p none sfi = Except.ok [] := by
  cases sfi <;> rfl

/-- With an interval pair supplied and display requested, the two band traces:
lower from the pair's second table, upper (filled) from the pair's first. -/
theorem intervalTraces_ok_on {p : PrepP} {u l : DF} {ti : List Trace}
    (h : intervalTraces p (some (u, l)) true = Except.ok ti) :
    ∃ lowY upY, l.valuesCol p.vid = some lowY ∧ u.valuesCol p.vid = some upY ∧
      ti = [⟨ "Lower Bound", p.X_forecast, lowY, false⟩,
            ⟨ "Upper Bound", p.X_forecast, upY, true⟩] := by
  unfold intervalTraces at h
  obtain ⟨lowY, hl, h⟩ := bind_ok_inv h
  obtain ⟨upY, hu, h⟩ := bind_ok_inv h
  exact ⟨lowY, upY, getOr_ok_inv hl, getOr_ok_inv hu, (pure_ok_inv h).symm⟩

/-- Interval traces are only ever named after the two bounds, and only the
upper one fills. -/
theorem intervalTraces_shape {p : PrepP} {fi : Option (DF × DF)} {sfi : Bool}
    {ti : List Trace} (h : intervalTraces p fi sfi = Except.ok ti) :
    ∀ t ∈ ti, (t.name = "Lower Bound" ∧ t.fill = false) ∨
              (t.name = "Upper Bound" ∧ t.fill = true) := by
  cases fi with
  | none =>
    rw [intervalTraces_ok_none] at h
    rw [← Except.ok.inj h]
    intro t ht
    exact absurd ht (List.not_mem_nil t)
  | some pr =>
    cases sfi with
    | false =>
      rw [intervalTraces_ok_off] at h
      rw [← Except.ok.inj h]
      intro t ht
      exact absurd ht (List.not_mem_nil t)
    | true =>
      obtain ⟨u, l⟩ := pr
      obtain ⟨lowY, upY, _, _, hti⟩ := intervalTraces_ok_on h
      subst hti
      intro t ht
      rcases ht with _ | ⟨_, ht⟩
      · exact Or.inl ⟨rfl, rfl⟩
      · rcases ht with _ | ⟨_, ht⟩
        · exact Or.inr ⟨rfl, rfl⟩
        · exact absurd ht (List.not_mem_nil t)

/-- No actual table, no actual trace. -/
theorem actualTraces_ok_none {p : PrepP} : actualTraces p none = Except.ok [] := rfl

/-- With an actual table supplied, the single actual trace. -/
theorem actualTraces_ok_some {p : PrepP} {a : DF} {ta : List Trace}
    (h : actualTraces p (some a) = Except.ok ta) :
    ∃ ya ay, p.y_actual = some ya ∧ ya.valuesCol p.vid = some ay ∧
      ta = [⟨ "Actual", p.X_forecast, ay, false⟩] := by
  unfold actualTraces at h
  obtain ⟨ya, hy, h⟩ := bind_ok_inv h
  obtain ⟨ay, ha, h⟩ := bind_ok_inv h
  exact ⟨ya, ay, getOr_ok_inv hy, getOr_ok_inv ha, (pure_ok_inv h).symm⟩

/-- Actual traces are named `Actual` and never fill. -/
theorem actualTraces_shape {p : PrepP} {a : Option DF} {ta : List Trace}
    (h : actualTraces p a = Except.ok ta) :
    ∀ t ∈ ta, t.name = "Actual" ∧ t.fill = false := by
  cases a with
  | none =>
    rw [actualTraces_ok_none] at h
    rw [← Except.ok.inj h]
    intro t ht
    exact absurd ht (List.not_mem_nil t)
  | some a0 =>
    obtain ⟨ya, ay, _, _, hta⟩ := actualTraces_ok_some h
    subst hta
    intro t ht
    rcases ht with _ | ⟨_, ht⟩
    · exact ⟨rfl, rfl⟩
    · exact absurd ht (List.not_mem_nil t)

/-- The forecast trace: drawn on `X_forecast` from the selected y-columns. -/
theorem forecastTrace_ok {p : PrepP} {tf : Trace} (h : forecastTrace p = Except.ok tf) :
    ∃ fy, p.y_forecast.valuesCol p.vid = some fy ∧
      tf = ⟨ "Forecast", p.X_forecast, fy, false⟩ := by
  unfold forecastTrace at h
  obtain ⟨fy, hf, h⟩ := bind_ok_inv h
  exact ⟨fy, getOr_ok_inv hf, (pure_ok_inv h).symm⟩

/-- Without `include_history` no historical trace is drawn. -/
theorem historyTraces_ok_off {p : PrepP} {h : Option DF} :
    historyTraces p h false = Except.ok [] := by
  cases h <;> rfl

/-- Without a history table no historical trace is drawn (plotly guard). -/
theorem historyTraces_ok_none {p : PrepP} {inc : Bool} :
    historyTraces p none inc = Except.ok [] := by
  cases inc <;> rfl

/-- With history supplied and included, the single historical trace. -/
theorem historyTraces_ok_on {p : PrepP} {hdf : DF} {th : List Trace}
    (h : historyTraces p (some hdf) true = Except.ok th) :
    ∃ hp2 hy, p.hist = some hp2 ∧ hp2.y_train.valuesCol p.vid = some hy ∧
      th = [⟨ "Historical", hp2.X_train, hy, false⟩] := by
  unfold historyTraces at h
  obtain ⟨hp2, hh, h⟩ := bind_ok_inv h
  obtain ⟨hy, hy2, h⟩ := bind_ok_inv h
  exact ⟨hp2, hy, getOr_ok_inv hh, getOr_ok_inv hy2, (pure_ok_inv h).symm⟩

/-- Historical traces are named `Historical` and never fill. -/
theorem historyTraces_shape {p : PrepP} {hopt : Option DF} {inc : Bool} {th : List Trace}
    (h : historyTraces p hopt inc = Except.ok th) :
    ∀ t ∈ th, t.name = "Historical" ∧ t.fill = false := by
  cases hopt with
  | none =>
    rw [historyTraces_ok_none] at h
    rw [← Except.ok.inj h]
    intro t ht
    exact absurd ht (List.not_mem_nil t)
  | some hdf =>
    cases inc with
    | false =>
      rw [historyTraces_ok_off] at h
      rw [← Except.ok.inj h]
      intro t ht
      exact absurd ht (List.not_mem_nil t)
    | true =>
      obtain ⟨hp2, hy, _, _, hth⟩ := historyTraces_ok_on h
      subst hth
      intro t ht
      rcases ht with _ | ⟨_, ht⟩
      · exact ⟨rfl, rfl⟩
      · exact absurd ht (List.not_mem_nil t)

/-- Without `include_history`, no historical line (static renderer). -/
theorem mplHistoryLines_ok_off {p : PrepP} : mplHistoryLines p false = Except.ok [] := rfl

/-- With `include_history` set, the single historical line; note the guard does
not require a history table (line 287), only the pre-processing state. -/
theorem mplHistoryLines_ok_on {p : PrepP} {lh : List MplLine}
    (h : mplHistoryLines p true = Except.ok lh) :
    ∃ hp2 hy, p.hist = some hp2 ∧ hp2.y_train.valuesCol p.vid = some hy ∧
      lh = [⟨hp2.X_train, hy, "Historical"⟩] := by
  unfold mplHistoryLines at h
  obtain ⟨hp2, hh, h⟩ := bind_ok_inv h
  obtain ⟨hy, hy2, h⟩ := bind_ok_inv h
  exact ⟨hp2, hy, getOr_ok_inv hh, getOr_ok_inv hy2, (pure_ok_inv h).symm⟩

/-- Historical lines carry the `Historical` label. -/
theorem mplHistoryLines_shape {p : PrepP} {inc : Bool} {lh : List MplLine}
    (h : mplHistoryLines p inc = Except.ok lh) : ∀ t ∈ lh, t.label = "Historical" := by
  cases inc with
  | false =>
    rw [mplHistoryLines_ok_off] at h
    rw [← Except.ok.inj h]
    intro t ht
    exact absurd ht (List.not_mem_nil t)
  | true =>
    obtain ⟨hp2, hy, _, _, hlh⟩ := mplHistoryLines_ok_on h
    subst hlh
    intro t ht
    rcases ht with _ | ⟨_, ht⟩
    · rfl
    · exact absurd ht (List.not_mem_nil t)

/-- The forecast line of the static renderer. -/
theorem mplForecastLine_ok {p : PrepP} {lf : MplLine}
    (h : mplForecastLine p = Except.ok lf) :
    ∃ fy, p.y_forecast.valuesCol p.vid = some fy ∧
      lf = ⟨p.X_forecast, fy, "Forecast"⟩ := by
  unfold mplForecastLine at h
  obtain ⟨fy, hf, h⟩ := bind_ok_inv h
  exact ⟨fy, getOr_ok_inv hf, (pure_ok_inv h).symm⟩

/-- No actual table, no actual line. -/
theorem mplActualLines_ok_none {p : PrepP} : mplActualLines p none = Except.ok [] := rfl

/-- With an actual table supplied, the single actual line. -/
theorem mplActualLines_ok_some {p : PrepP} {a : DF} {la : List MplLine}
    (h : mplActualLines p (some a) = Except.ok la) :
    ∃ ya ay, p.y_actual = some ya ∧ ya.valuesCol p.vid = some ay ∧
      la = [⟨p.X_forecast, ay, "Actual"⟩] := by
  unfold mplActualLines at h
  obtain ⟨ya, hy, h⟩ := bind_ok_inv h
  obtain ⟨ay, ha, h⟩ := bind_ok_inv h
  exact ⟨ya, ay, getOr_ok_inv hy, getOr_ok_inv ha, (pure_ok_inv h).symm⟩

/-- Actual lines carry the `Actual` label. -/
theorem mplActualLines_shape {p : PrepP} {a : Option DF} {la : List MplLine}
    (h : mplActualLines p a = Except.ok la) : ∀ t ∈ la, t.label = "Actual" := by
  cases a with
  | none =>
    rw [mplActualLines_ok_none] at h
    rw [← Except.ok.inj h]
    intro t ht
    exact absurd ht (List.not_mem_nil t)
  | some a0 =>
    obtain ⟨ya, ay, _, _, hla⟩ := mplActualLines_ok_some h
    subst hla
    intro t ht
    rcases ht with _ | ⟨_, ht⟩
    · rfl
    · exact absurd ht (List.not_mem_nil t)

/-- With `show_forecast_interval` left false, no band is filled. -/
theorem mplBands_ok_off {p : PrepP} {fi : Option (DF × DF)} :
    mplBands p fi false = Except.ok [] := by
  cases fi <;> rfl

/-- With no `forecast_interval`, no band is filled. -/
theorem mplBands_ok_none {p : PrepP} {sfi : Bool} :
    mplBands p none sfi = Except.ok [] := by
  cases sfi <;> rfl

/-- With an interval pair supplied and display requested, the single band:
lower bound from the pair's second table, upper from the pair's first. -/
theorem mplBands_ok_on {p : PrepP} {u l : DF} {bs : List Band}
    (h : mplBands p (some (u, l)) true = Except.ok bs) :
    ∃ lowY upY, l.valuesCol p.vid = some lowY ∧ u.valuesCol p.vid = some upY ∧
      bs = [⟨p.X_forecast, lowY, upY⟩] := by
  unfold mplBands at h
  obtain ⟨lowY, hl, h⟩ := bind_ok_inv h
  obtain ⟨upY, hu, h⟩ := bind_ok_inv h
  exact ⟨lowY, upY, getOr_ok_inv hl, getOr_ok_inv hu, (pure_ok_inv h).symm⟩

/-- The reference line and its marker, when the boundary timestamp exists and
history is included. -/
theorem refLineParts_eq_on {p : PrepP} {hp2 : HistPart} {d : Int}
    (hh : p.hist = some hp2) (hd : hp2.train_end_date = some d) :
    refLineParts p true = ([⟨d⟩], [⟨d, "Observed End Date"⟩]) := by
  unfold refLineParts
  rw [hh]
  simp only [hd]

/-- No reference line without a history part. -/
theorem refLineParts_eq_none {p : PrepP} {inc : Bool} (hh : p.hist = none) :
    refLineParts p inc = ([], []) := by
  unfold refLineParts
  rw [hh]

/-- No reference line without a boundary timestamp. -/
theorem refLineParts_eq_no_ted {p : PrepP} {hp2 : HistPart} {inc : Bool}
    (hh : p.hist = some hp2) (hd : hp2.train_end_date = none) :
    refLineParts p inc = ([], []) := by
  unfold refLineParts
  rw [hh]
  simp only [hd]

/-- `find?` by trace name skips a prefix of differently-named traces. -/
theorem traces_find_skip {l₁ l₂ : List Trace} {n : String}
    (h₁ : ∀ t ∈ l₁, t.name ≠ n) :
    ((l₁ ++ l₂).find? (fun t => t.name == n)) = l₂.find? (fun t => t.name == n) := by
  induction l₁ with
  | nil => rfl
  | cons a as ih =>
    rw [List.cons_append,
        List.find?_cons_of_neg _ (by simpa using h₁ a (List.mem_cons_self a as))]
    exact ih (fun t ht => h₁ t (List.mem_cons_of_mem a ht))

/-- `find?` by line label skips a prefix of differently-labelled lines. -/
theorem lines_find_skip {l₁ l₂ : List MplLine} {lab : String}
    (h₁ : ∀ t ∈ l₁, t.label ≠ lab) :
    ((l₁ ++ l₂).find? (fun t => t.label == lab)) = l₂.find? (fun t => t.label == lab) := by
  induction l₁ with
  | nil => rfl
  | cons a as ih =>
    rw [List.cons_append,
        List.find?_cons_of_neg _ (by simpa using h₁ a (List.mem_cons_self a as))]
    exact ih (fun t ht => h₁ t (List.mem_cons_of_mem a ht))

/-- Bind on a failed computation propagates the failure. -/
theorem err_bind {α β : Type} (e : PlotErr) (k : α → Except PlotErr β) :
    (Except.error e : Except PlotErr α) >>= k = Except.error e := rfl

/-- `String.toList` distributes over append. -/
theorem toList_append (a b : String) : (a ++ b).toList = a.toList ++ b.toList := rfl

/-- C2: in both renderers, a string `var_id` present in the list-coerced
`target_col` resolves to `target_col.index(var_id)`, and this resolved index is
the one recorded in the pre-processing state and used by every later column
access; an integer `var_id` is used as-is. -/
theorem claim_C2 (forecast : DF) (timestamp_col target_col : ColSpec)
    (actual history : Option DF) (include_history : Bool) :
    (∀ s p, s ∈ normTargetCol target_col →
      plotlyPrep forecast timestamp_col target_col (VarId.name s) actual history
        include_history = Except.ok p →
      p.vid = (((normTargetCol target_col).indexOf s : Nat) : Int)) ∧
    (∀ s p, s ∈ normTargetCol target_col →
      mplPrep forecast timestamp_col target_col (VarId.name s) actual history
        include_history = Except.ok p →
      p.vid = (((normTargetCol target_col).indexOf s : Nat) : Int)) ∧
    (∀ i p, plotlyPrep forecast timestamp_col target_col (VarId.idx i) actual history
        include_history = Except.ok p → p.vid = i) ∧
    (∀ i p, mplPrep forecast timestamp_col target_col (VarId.idx i) actual history
        include_history = Except.ok p → p.vid = i) := by
  have key : ∀ (wt : Bool) (s : String) (p : PrepP), s ∈ normTargetCol target_col →
      prepCommon forecast timestamp_col target_col (VarId.name s) actual history
        include_history wt = Except.ok p →
      p.vid = (((normTargetCol target_col).indexOf s : Nat) : Int) := by
    intro wt s p hs hp
    have h1 := (prepCommon_spec hp).1
    rw [resolveVarId, if_pos hs] at h1
    exact (Except.ok.inj h1).symm
  have key2 : ∀ (wt : Bool) (i : Int) (p : PrepP),
      prepCommon forecast timestamp_col target_col (VarId.idx i) actual history
        include_history wt = Except.ok p → p.vid = i := by
    intro wt i p hp
    have h1 := (prepCommon_spec hp).1
    rw [resolveVarId] at h1
    exact (Except.ok.inj h1).symm
  exact ⟨fun s p hs hp => key true s p hs hp, fun s p hs hp => key false s p hs hp,
         fun i p hp => key2 true i p hp, fun i p hp => key2 false i p hp⟩

/-- C2 witness: selecting `y2` by name in a two-target table resolves to index 1. -/
theorem claim_C2_witness :
    pC2.vid = (((normTargetCol (ColSpec.many ["y1", "y2"])).indexOf "y2" : Nat) : Int) :=
  (claim_C2 exF2 (ColSpec.one "ts") (ColSpec.many ["y1", "y2"]) none none false).1
    "y2" pC2 (by decide) rfl

/-- C3: a string `var_id` absent from the list-coerced `target_col` makes both
renderers raise the `ValueError` of line 71/260 — whose message contains the
offending value and the rendered valid set — and the failure happens before any
figure is created or any trace is drawn: the same error is raised for every
value of the backend-availability flags, so it precedes `go.Figure()` /
`plt.figure()`, and the result carries no figure. -/
theorem claim_C3 (enable_mpl enable_plotly : Bool) (forecast : DF)
    (timestamp_col target_col : ColSpec) (s : String) (actual history : Option DF)
    (forecast_interval : Option (DF × DF)) (show_forecast_interval include_history : Bool)
    (figsize : Option (Int × Int)) (grid : Bool)
    (hnot : s ∉ normTargetCol target_col) :
    plot_plotly enable_mpl enable_plotly forecast timestamp_col target_col (VarId.name s)
      actual history forecast_interval show_forecast_interval include_history
      = Except.error (PlotErr.varIdNotIn s (normTargetCol target_col)) ∧
    plot_mpl enable_mpl forecast timestamp_col target_col (VarId.name s)
      actual history forecast_interval show_forecast_interval include_history figsize grid
      = Except.error (PlotErr.varIdNotIn s (normTargetCol target_col)) ∧
    substr s (PlotErr.varIdNotIn s (normTargetCol target_col)).message ∧
    substr (toString (normTargetCol target_col))
      (PlotErr.varIdNotIn s (normTargetCol target_col)).message := by
  have hres : resolveVarId (normTargetCol target_col) (VarId.name s)
      = Except.error (PlotErr.varIdNotIn s (normTargetCol target_col)) := by
    rw [resolveVarId, if_neg hnot]
  refine ⟨?_, ?_, ?_, ?_⟩
  · simp only [plot_plotly, plotlyPrep, prepCommon, hres, err_bind]
  · simp only [plot_mpl, mplPrep, prepCommon, hres, err_bind]
  · refine ⟨[], (" might not be target columns "
        ++ toString (normTargetCol target_col) ++ ".").toList, ?_⟩
    simp only [PlotErr.message, toList_append, List.append_assoc, List.nil_append]
  · refine ⟨(s ++ " might not be target columns ").toList, ".".toList, ?_⟩
    simp only [PlotErr.message, toList_append, List.append_assoc, List.nil_append]

/-- C3 witness: requesting variable `z` of a table whose only target is `y`. -/
theorem claim_C3_witness :
    plot_plotly true true exF (ColSpec.one "ts") (ColSpec.one "y") (VarId.name "z")
      none none none false false
      = Except.error (PlotErr.varIdNotIn "z" (normTargetCol (ColSpec.one "y"))) ∧
    plot_mpl true exF (ColSpec.one "ts") (ColSpec.one "y") (VarId.name "z")
      none none none false false none true
      = Except.error (PlotErr.varIdNotIn "z" (normTargetCol (ColSpec.one "y"))) ∧
    substr "z" (PlotErr.varIdNotIn "z" (normTargetCol (ColSpec.one "y"))).message ∧
    substr (toString (normTargetCol (ColSpec.one "y")))
      (PlotErr.varIdNotIn "z" (normTargetCol (ColSpec.one "y"))).message :=
  claim_C3 true true exF (ColSpec.one "ts") (ColSpec.one "y") "z" none none none
    false false none true (by decide)

/-- C7 counterexample: the claim that every data-accessing call uses a resolved
index inside `[0, len(target_col))` fails for integer `var_id`.  With
`target_col = [y]` and `var_id = -1` the static render succeeds — the y-column
is actually read (numpy wraps `-1` to the last column) — yet the index used
as-is by the code, `-1`, lies outside `[0, 1)`.  The same resolution code is
shared verbatim by the interactive renderer (lines 65-71 / 254-260). -/
theorem claim_C7_counterexample :
    ((plot_mpl true exF (ColSpec.one "ts") (ColSpec.one "y") (VarId.idx (-1)) none none
        none false false none true).toOption.map
      (fun r => (MplFigure.lineLabeled r.shown "Forecast").map MplLine.y)
      = some (some [10, 20, 30, 40, 50])) ∧
    resolveVarId (normTargetCol (ColSpec.one "y")) (VarId.idx (-1)) = Except.ok (-1) ∧
    ¬(0 ≤ (-1 : Int) ∧ (-1 : Int) < ((normTargetCol (ColSpec.one "y")).length : Int)) :=
  ⟨rfl, rfl, by decide⟩

/-- C7 (amended): when `var_id` is given as a name, both renderers resolve it —
before any data access — to a valid index inside `[0, len(target_col))`; an
integer `var_id` is passed through unvalidated (it may be negative or out of
range and reaches the column reads unchecked). -/
theorem claim_C7_amended (forecast : DF) (timestamp_col target_col : ColSpec) (s : String)
    (actual history : Option DF) (include_history : Bool) :
    (∀ vid, resolveVarId (normTargetCol target_col) (VarId.name s) = Except.ok vid →
       0 ≤ vid ∧ vid < ((normTargetCol target_col).length : Int)) ∧
    (∀ p, plotlyPrep forecast timestamp_col target_col (VarId.name s) actual history
        include_history = Except.ok p →
       0 ≤ p.vid ∧ p.vid < ((normTargetCol target_col).length : Int)) ∧
    (∀ p, mplPrep forecast timestamp_col target_col (VarId.name s) actual history
        include_history = Except.ok p →
       0 ≤ p.vid ∧ p.vid < ((normTargetCol target_col).length : Int)) ∧
    (∀ i p, plotlyPrep forecast timestamp_col target_col (VarId.idx i) actual history
        include_history = Except.ok p → p.vid = i) ∧
    (∀ i p, mplPrep forecast timestamp_col target_col (VarId.idx i) actual history
        include_history = Except.ok p → p.vid = i) := by
  have key : ∀ vid, resolveVarId (normTargetCol target_col) (VarId.name s) = Except.ok vid →
      0 ≤ vid ∧ vid < ((normTargetCol target_col).length : Int) := by
    intro vid h
    rw [resolveVarId] at h
    by_cases hs : s ∈ normTargetCol target_col
    · rw [if_pos hs] at h
      rw [← Except.ok.inj h]
      refine ⟨Int.ofNat_nonneg _, ?_⟩
      exact_mod_cast List.indexOf_lt_length.mpr hs
    · rw [if_neg hs] at h
      exact Except.noConfusion h
  have keyI : ∀ (wt : Bool) (i : Int) (p : PrepP),
      prepCommon forecast timestamp_col target_col (VarId.idx i) actual history
        include_history wt = Except.ok p → p.vid = i := by
    intro wt i p hp
    have h1 := (prepCommon_spec hp).1
    rw [resolveVarId] at h1
    exact (Except.ok.inj h1).symm
  exact ⟨key,
         fun p hp => key p.vid (prepCommon_spec hp).1,
         fun p hp => key p.vid (prepCommon_spec hp).1,
         fun i p hp => keyI true i p hp,
         fun i p hp => keyI false i p hp⟩

/-- C7 witness: the name `y2` resolves to index 1, valid in a 2-target list. -/
theorem claim_C7_witness :
    (0 : Int) ≤ pC2.vid ∧
    pC2.vid < ((normTargetCol (ColSpec.many ["y1", "y2"])).length : Int) :=
  (claim_C7_amended exF2 (ColSpec.one "ts") (ColSpec.many ["y1", "y2"]) "y2"
    none none false).2.1 pC2 rfl

/-- C8: both entry points display the figure but fall off the end of the
function body without a `return` statement (lines 202 / 320), so the value
returned to the caller is `None`, not the figure — contradicting their own
docstrings (`Returns: fig`) and the spec signatures `-> Figure`.  On a
successful concrete call the `returned` component of each result is `none`. -/
theorem claim_C8_returns_none :
    (plot_plotly true true exF (ColSpec.one "ts") (ColSpec.one "y") (VarId.idx 0)
      none none none false false).map PlotlyResult.returned = Except.ok none ∧
    (plot_mpl true exF (ColSpec.one "ts") (ColSpec.one "y") (VarId.idx 0)
      none none none false false none true).map MplResult.returned = Except.ok none :=
  ⟨rfl, rfl⟩

/-- C9: the import failure is logged once, and `plot_mpl` indeed works without
plotly (it never touches `go`), but the claim fails in the direction it
singles out: `plot_plotly` calls `plt.set_loglevel('WARNING')` (line 99)
unconditionally, so with matplotlib missing and plotly available the
interactive render raises `NameError` on `plt` instead of succeeding. -/
theorem claim_C9_bug :
    moduleInitLogs false true = ["Importing matplotlib failed. Plotting will not work."] ∧
    plot_plotly false true exF (ColSpec.one "ts") (ColSpec.one "y") (VarId.idx 0)
      none none none false false = Except.error (PlotErr.nameErr "plt") ∧
    (plot_mpl true exF (ColSpec.one "ts") (ColSpec.one "y") (VarId.idx 0)
      none none none false false none true).toOption.isSome = true :=
  ⟨rfl, rfl, rfl⟩

/-- C10: `plot_mpl` guards the historical line only with `if include_history:`
(line 287), not with `history is not None and include_history` as the
interactive renderer does (line 149); with `include_history=True` and
`history=None` it evaluates `y_train.values` on `None` and raises
`AttributeError` instead of omitting the line.  The same input renders fine
through `plot_plotly`, whose guard is correct. -/
theorem claim_C10_bug :
    plot_mpl true exF (ColSpec.one "ts") (ColSpec.one "y") (VarId.idx 0) none none none
      false true none true = Except.error PlotErr.noneAttr ∧
    (plot_plotly true true exF (ColSpec.one "ts") (ColSpec.one "y") (VarId.idx 0)
      none none none false true).toOption.isSome = true :=
  ⟨rfl, rfl⟩

/-- `find?` by name hits the element after two skipped chunks. -/
theorem traces_find_hit {l₁ l₂ l₃ : List Trace} {m : Trace} {n : String}
    (h₁ : ∀ t ∈ l₁, t.name ≠ n) (h₂ : ∀ t ∈ l₂, t.name ≠ n) (hm : m.name = n) :
    (l₁ ++ l₂ ++ [m] ++ l₃).find? (fun t => t.name == n) = some m := by
  rw [List.append_assoc, List.append_assoc, traces_find_skip h₁, traces_find_skip h₂,
      List.singleton_append]
  exact List.find?_cons_of_pos _ (by simp [hm])

/-- `find?` by name hits the head of the fourth chunk. -/
theorem traces_find_hit2 {l₁ l₂ l₃ : List Trace} {tf m : Trace} {n : String}
    (h₁ : ∀ t ∈ l₁, t.name ≠ n) (h₂ : ∀ t ∈ l₂, t.name ≠ n) (h₃ : tf.name ≠ n)
    (hm : m.name = n) :
    (l₁ ++ l₂ ++ [tf] ++ (m :: l₃)).find? (fun t => t.name == n) = some m := by
  rw [List.append_assoc, List.append_assoc, traces_find_skip h₁, traces_find_skip h₂,
      List.singleton_append, List.find?_cons_of_neg _ (by simp [h₃])]
  exact List.find?_cons_of_pos _ (by simp [hm])

/-- `find?` by label hits the middle chunk. -/
theorem lines_find_hit {l₁ l₂ : List MplLine} {m : MplLine} {lab : String}
    (h₁ : ∀ t ∈ l₁, t.label ≠ lab) (hm : m.label = lab) :
    (l₁ ++ [m] ++ l₂).find? (fun t => t.label == lab) = some m := by
  rw [List.append_assoc, lines_find_skip h₁, List.singleton_append]
  exact List.find?_cons_of_pos _ (by simp [hm])

/-- `find?` by label hits the head of the list. -/
theorem lines_find_head {l₁ l₂ : List MplLine} {m : MplLine} {lab : String}
    (hm : m.label = lab) :
    ((m :: l₁) ++ l₂).find? (fun t => t.label == lab) = some m := by
  rw [List.cons_append]
  exact List.find?_cons_of_pos _ (by simp [hm])


/-- Projection of a literal interactive result. -/
theorem shown_mk (f : GoFigure) (ret : Option GoFigure) :
    (PlotlyResult.mk f ret).shown = f := rfl

/-- Projection of a literal static result. -/
theorem mpl_shown_mk (f : MplFigure) (ret : Option MplFigure) :
    (MplResult.mk f ret).shown = f := rfl

/-- `traceNamed` on a literal figure searches its trace list. -/
theorem traceNamed_mk (ts : List Trace) (sh : List VLine) (an : List Annot)
    (xt yt ttl : String) (rs : Bool) (n : String) :
    GoFigure.traceNamed ⟨ts, sh, an, xt, yt, ttl, rs⟩ n
      = ts.find? (fun t => t.name == n) := rfl

/-- `lineLabeled` on a literal figure searches its line list. -/
theorem lineLabeled_mk (fs : Int × Int) (ls : List MplLine) (bs : List Band)
    (ttl yl xl : String) (g : Bool) (lab : String) :
    MplFigure.lineLabeled ⟨fs, ls, bs, ttl, yl, xl, g⟩ lab
      = ls.find? (fun t => t.label == lab) := rfl

/-- C1: in timestamp-free mode (the coerced timestamp column name is absent
from the forecast table), the forecast x-axis of both renderers is the integer
range `[0, len(forecast))` when history is not included, and
`[len(history), len(history)+len(forecast))` with a history x-axis of
`[0, len(history))` when a history table is supplied and `include_history` is
true. -/
theorem claim_C1 (enable_mpl enable_plotly : Bool) (forecast : DF)
    (timestamp_col target_col : ColSpec) (var_id : VarId) (actual history : Option DF)
    (forecast_interval : Option (DF × DF)) (show_forecast_interval include_history : Bool)
    (figsize : Option (Int × Int)) (grid : Bool) (tsc : String)
    (hts : normTimestampCol timestamp_col = Except.ok tsc)
    (hfree : (tb_columns_values forecast).contains tsc = false) :
    (∀ r, plot_plotly enable_mpl enable_plotly forecast timestamp_col target_col var_id
        actual history forecast_interval show_forecast_interval include_history
        = Except.ok r →
      ((history = none ∨ include_history = false) →
        (GoFigure.traceNamed r.shown "Forecast").map Trace.x
          = some (tb_arange 0 forecast.len)) ∧
      (∀ hdf, history = some hdf → include_history = true →
        (GoFigure.traceNamed r.shown "Forecast").map Trace.x
          = some (tb_arange hdf.len (hdf.len + forecast.len)) ∧
        (GoFigure.traceNamed r.shown "Historical").map Trace.x
          = some (tb_arange 0 hdf.len))) ∧
    (∀ r, plot_mpl enable_mpl forecast timestamp_col target_col var_id actual history
        forecast_interval show_forecast_interval include_history figsize grid
        = Except.ok r →
      ((history = none ∨ include_history = false) →
        (MplFigure.lineLabeled r.shown "Forecast").map MplLine.x
          = some (tb_arange 0 forecast.len)) ∧
      (∀ hdf, history = some hdf → include_history = true →
        (MplFigure.lineLabeled r.shown "Forecast").map MplLine.x
          = some (tb_arange hdf.len (hdf.len + forecast.len)) ∧
        (MplFigure.lineLabeled r.shown "Historical").map MplLine.x
          = some (tb_arange 0 hdf.len))) := by
  constructor
  · intro r hr
    obtain ⟨p, hp, _, _, hb⟩ := plot_plotly_ok_parts hr
    unfold plotlyPrep at hp
    have hs := prepCommon_spec hp
    have htsc : p.tsc = tsc := (Except.ok.inj (hts.symm.trans hs.2.1)).symm
    have hfree2 : p.ts_free = true := by
      rw [hs.2.2.2.1, htsc, hfree]
      rfl
    have hax := prepAxes_spec hs.2.2.2.2.2.2
    obtain ⟨ti, ta, tf, th, yt, hI, hA, hF, hH, hyt, hreq⟩ := buildPlotlyFigure_spec hb
    obtain ⟨fy, hfy, htf⟩ := forecastTrace_ok hF
    have hti : ∀ t ∈ ti, t.name ≠ "Forecast" := by
      intro t ht
      rcases intervalTraces_shape hI t ht with ⟨h1, _⟩ | ⟨h1, _⟩ <;> simp [h1]
    have hta : ∀ t ∈ ta, t.name ≠ "Forecast" := by
      intro t ht
      simp [(actualTraces_shape hA t ht).1]
    subst hreq
    subst htf
    constructor
    · intro hcase
      have hXf : p.X_forecast = tb_arange 0 forecast.len := (hax.1 hcase).2 hfree2
      rw [shown_mk, traceNamed_mk, traces_find_hit hti hta rfl]
      simp [hXf]
    · intro hdf hh hinc
      subst hh
      subst hinc
      obtain ⟨ytr, hres⟩ := (hax.2 hdf rfl rfl).1 hfree2
      have hhist : p.hist = some ⟨tb_arange 0 hdf.len, ytr, none⟩ := congrArg Prod.fst hres
      have hXf : p.X_forecast = tb_arange hdf.len (hdf.len + forecast.len) :=
        congrArg Prod.snd hres
      obtain ⟨hp2, hy, hph, hyv, hth⟩ := historyTraces_ok_on hH
      have hhp2 : hp2 = ⟨tb_arange 0 hdf.len, ytr, none⟩ :=
        Option.some.inj (hph.symm.trans hhist)
      subst hth
      constructor
      · rw [shown_mk, traceNamed_mk, traces_find_hit hti hta rfl]
        simp [hXf]
      · have hti2 : ∀ t ∈ ti, t.name ≠ "Historical" := by
          intro t ht
          rcases intervalTraces_shape hI t ht with ⟨h1, _⟩ | ⟨h1, _⟩ <;> simp [h1]
        have hta2 : ∀ t ∈ ta, t.name ≠ "Historical" := by
          intro t ht
          simp [(actualTraces_shape hA t ht).1]
        have h3 : (⟨ "Forecast", p.X_forecast, fy, false⟩ : Trace).name ≠ "Historical" := by
          simp
        rw [shown_mk, traceNamed_mk, traces_find_hit2 hti2 hta2 h3 rfl]
        simp [hhp2]
  · intro r hr
    obtain ⟨p, hp, _, hb⟩ := plot_mpl_ok_parts hr
    unfold mplPrep at hp
    have hs := prepCommon_spec hp
    have htsc : p.tsc = tsc := (Except.ok.inj (hts.symm.trans hs.2.1)).symm
    have hfree2 : p.ts_free = true := by
      rw [hs.2.2.2.1, htsc, hfree]
      rfl
    have hax := prepAxes_spec hs.2.2.2.2.2.2
    obtain ⟨lh, lf, la, bs, yl, hLH, hLF, hLA, hB, hyl, hreq⟩ := buildMplFigure_spec hb
    obtain ⟨fy, hfy, hlf⟩ := mplForecastLine_ok hLF
    have hlh : ∀ t ∈ lh, t.label ≠ "Forecast" := by
      intro t ht
      simp [mplHistoryLines_shape hLH t ht]
    subst hreq
    subst hlf
    constructor
    · intro hcase
      have hXf : p.X_forecast = tb_arange 0 forecast.len := (hax.1 hcase).2 hfree2
      rw [mpl_shown_mk, lineLabeled_mk, lines_find_hit hlh rfl]
      simp [hXf]
    · intro hdf hh hinc
      subst hh
      subst hinc
      obtain ⟨ytr, hres⟩ := (hax.2 hdf rfl rfl).1 hfree2
      have hhist : p.hist = some ⟨tb_arange 0 hdf.len, ytr, none⟩ := congrArg Prod.fst hres
      have hXf : p.X_forecast = tb_arange hdf.len (hdf.len + forecast.len) :=
        congrArg Prod.snd hres
      obtain ⟨hp2, hy, hph, hyv, hlh2⟩ := mplHistoryLines_ok_on hLH
      have hhp2 : hp2 = ⟨tb_arange 0 hdf.len, ytr, none⟩ :=
        Option.some.inj (hph.symm.trans hhist)
      subst hlh2
      have hskip : ∀ t ∈ [(⟨hp2.X_train, hy, "Historical"⟩ : MplLine)],
          t.label ≠ "Forecast" := by
        intro t ht
        rcases ht with _ | ⟨_, ht⟩
        · simp
        · exact absurd ht (List.not_mem_nil t)
      constructor
      · rw [mpl_shown_mk, lineLabeled_mk, lines_find_hit hskip rfl]
        simp [hXf]
      · rw [mpl_shown_mk, lineLabeled_mk, List.append_assoc,
            lines_find_head (show (⟨hp2.X_train, hy, "Historical"⟩ : MplLine).label
              = "Historical" from rfl)]
        simp [hhp2]

/-- C1 witness: 5-row timestamp-free forecast with a 3-row history included
gives forecast x-axis `[3..7]` and history x-axis `[0..2]` in both renderers. -/
theorem claim_C1_witness :
    (GoFigure.traceNamed rC1.shown "Forecast").map Trace.x
      = some (tb_arange exH.len (exH.len + exF.len)) ∧
    (GoFigure.traceNamed rC1.shown "Historical").map Trace.x
      = some (tb_arange 0 exH.len) ∧
    (MplFigure.lineLabeled rC1m.shown "Forecast").map MplLine.x
      = some (tb_arange exH.len (exH.len + exF.len)) ∧
    (MplFigure.lineLabeled rC1m.shown "Historical").map MplLine.x
      = some (tb_arange 0 exH.len) := by
  have h := claim_C1 true true exF (ColSpec.one "ts") (ColSpec.one "y") (VarId.idx 0)
    none (some exH) none false true none true "ts" rfl (by decide)
  have h1 := h.1 rC1 rfl
  have h2 := h.2 rC1m rfl
  exact ⟨(h1.2 exH rfl rfl).1, (h1.2 exH rfl rfl).2,
         (h2.2 exH rfl rfl).1, (h2.2 exH rfl rfl).2⟩

/-- Field access on a literal figure: the trace list. -/
theorem traces_mk (ts : List Trace) (sh : List VLine) (an : List Annot)
    (xt yt ttl : String) (rs : Bool) :
    (GoFigure.mk ts sh an xt yt ttl rs).traces = ts := rfl

/-- Field access on a literal figure: the shapes. -/
theorem shapes_mk (ts : List Trace) (sh : List VLine) (an : List Annot)
    (xt yt ttl : String) (rs : Bool) :
    (GoFigure.mk ts sh an xt yt ttl rs).shapes = sh := rfl

/-- Field access on a literal figure: the layout markers. -/
theorem annots_mk (ts : List Trace) (sh : List VLine) (an : List Annot)
    (xt yt ttl : String) (rs : Bool) :
    (GoFigure.mk ts sh an xt yt ttl rs).annots = an := rfl

/-- Field access on a literal static figure: the line list. -/
theorem lines_mk (fs : Int × Int) (ls : List MplLine) (bs : List Band)
    (ttl yl xl : String) (g : Bool) :
    (MplFigure.mk fs ls bs ttl yl xl g).lines = ls := rfl

/-- C5: the actual-values trace/line is present in the rendered figure exactly
when an `actual` table is supplied, and the title is `Actual vs Forecast`
exactly then, `Forecast Curve` otherwise — in both renderers. -/
theorem claim_C5 (enable_mpl enable_plotly : Bool) (forecast : DF)
    (timestamp_col target_col : ColSpec) (var_id : VarId) (actual history : Option DF)
    (forecast_interval : Option (DF × DF)) (show_forecast_interval include_history : Bool)
    (figsize : Option (Int × Int)) (grid : Bool) :
    (∀ r, plot_plotly enable_mpl enable_plotly forecast timestamp_col target_col var_id
        actual history forecast_interval show_forecast_interval include_history
        = Except.ok r →
      ((∃ t ∈ r.shown.traces, t.name = "Actual") ↔ actual.isSome = true) ∧
      r.shown.title
        = (if actual.isSome then "Actual vs Forecast" else "Forecast Curve")) ∧
    (∀ r, plot_mpl enable_mpl forecast timestamp_col target_col var_id actual history
        forecast_interval show_forecast_interval include_history figsize grid
        = Except.ok r →
      ((∃ t ∈ r.shown.lines, t.label = "Actual") ↔ actual.isSome = true) ∧
      r.shown.title
        = (if actual.isSome then "Actual vs Forecast" else "Forecast Curve")) := by
  constructor
  · intro r hr
    obtain ⟨p, hp, _, _, hb⟩ := plot_plotly_ok_parts hr
    obtain ⟨ti, ta, tf, th, yt, hI, hA, hF, hH, hyt, hreq⟩ := buildPlotlyFigure_spec hb
    obtain ⟨fy, hfy, htf⟩ := forecastTrace_ok hF
    subst hreq
    subst htf
    cases actual with
    | none =>
      have hta0 : ta = [] := (Except.ok.inj (actualTraces_ok_none.symm.trans hA)).symm
      subst hta0
      refine ⟨?_, rfl⟩
      simp only [shown_mk, traces_mk]
      constructor
      · rintro ⟨t, ht, hname⟩
        exfalso
        simp only [List.mem_append, List.mem_nil_iff, or_false, List.mem_singleton,
          List.not_mem_nil] at ht
        rcases ht with (hti' | htf') | hth'
        · rcases intervalTraces_shape hI t hti' with ⟨h1, _⟩ | ⟨h1, _⟩ <;>
            simp [h1] at hname
        · subst htf'
          simp at hname
        · have h1 := (historyTraces_shape hH t hth').1
          simp [h1] at hname
      · intro habs
        simp at habs
    | some a =>
      obtain ⟨ya, ay, hya, hyv, hta1⟩ := actualTraces_ok_some hA
      subst hta1
      refine ⟨?_, rfl⟩
      simp only [shown_mk, traces_mk]
      constructor
      · intro _
        rfl
      · intro _
        exact ⟨⟨ "Actual", p.X_forecast, ay, false⟩, by simp, rfl⟩
  · intro r hr
    obtain ⟨p, hp, _, hb⟩ := plot_mpl_ok_parts hr
    obtain ⟨lh, lf, la, bs, yl, hLH, hLF, hLA, hB, hyl, hreq⟩ := buildMplFigure_spec hb
    obtain ⟨fy, hfy, hlf⟩ := mplForecastLine_ok hLF
    subst hreq
    subst hlf
    cases actual with
    | none =>
      have hla0 : la = [] := (Except.ok.inj (mplActualLines_ok_none.symm.trans hLA)).symm
      subst hla0
      refine ⟨?_, rfl⟩
      simp only [mpl_shown_mk, lines_mk]
      constructor
      · rintro ⟨t, ht, hname⟩
        exfalso
        simp only [List.mem_append, List.mem_nil_iff, or_false, List.mem_singleton,
          List.not_mem_nil] at ht
        rcases ht with hlh' | hlf'
        · have h1 := mplHistoryLines_shape hLH t hlh'
          simp [h1] at hname
        · subst hlf'
          simp at hname
      · intro habs
        simp at habs
    | some a =>
      obtain ⟨ya, ay, hya, hyv, hla1⟩ := mplActualLines_ok_some hLA
      subst hla1
      refine ⟨?_, rfl⟩
      simp only [mpl_shown_mk, lines_mk]
      constructor
      · intro _
        rfl
      · intro _
        exact ⟨⟨p.X_forecast, ay, "Actual"⟩, by simp, rfl⟩

/-- C5 witness: with an actual table the title is `Actual vs Forecast` and an
actual trace exists; without one (the C1 run) the title is `Forecast Curve`. -/
theorem claim_C5_witness :
    rC5.shown.title = "Actual vs Forecast" ∧
    (∃ t ∈ rC5.shown.traces, t.name = "Actual") ∧
    rC1.shown.title = "Forecast Curve" := by
  have h5 := (claim_C5 true true exF (ColSpec.one "ts") (ColSpec.one "y") (VarId.idx 0)
    (some exF) none none false false none true).1 rC5 rfl
  have h1 := (claim_C5 true true exF (ColSpec.one "ts") (ColSpec.one "y") (VarId.idx 0)
    none (some exH) none false true none true).1 rC1 rfl
  exact ⟨h5.2, h5.1.mpr rfl, h1.2⟩

/-- C4: supplying a `forecast_interval` pair with `show_forecast_interval` left
false draws no band in either renderer (no filled trace, no bound traces, no
`fill_between`); with `show_forecast_interval=True` the band's upper bound is
column `var_id` of the pair's first table, the lower bound is column `var_id`
of the pair's second table, and both are plotted against the forecast x-axis. -/
theorem claim_C4 (enable_mpl enable_plotly : Bool) (forecast : DF)
    (timestamp_col target_col : ColSpec) (var_id : VarId) (actual history : Option DF)
    (u l : DF) (include_history : Bool) (figsize : Option (Int × Int)) (grid : Bool) :
    (∀ r, plot_plotly enable_mpl enable_plotly forecast timestamp_col target_col var_id
        actual history (some (u, l)) false include_history = Except.ok r →
      ∀ t ∈ r.shown.traces,
        t.fill = false ∧ t.name ≠ "Upper Bound" ∧ t.name ≠ "Lower Bound") ∧
    (∀ r, plot_mpl enable_mpl forecast timestamp_col target_col var_id actual history
        (some (u, l)) false include_history figsize grid = Except.ok r →
      r.shown.bands = []) ∧
    (∀ r vid, plot_plotly enable_mpl enable_plotly forecast timestamp_col target_col var_id
        actual history (some (u, l)) true include_history = Except.ok r →
      resolveVarId (normTargetCol target_col) var_id = Except.ok vid →
      ∃ upY lowY,
        u.valuesCol vid = some upY ∧ l.valuesCol vid = some lowY ∧
        (GoFigure.traceNamed r.shown "Upper Bound").map Trace.y = some upY ∧
        (GoFigure.traceNamed r.shown "Lower Bound").map Trace.y = some lowY ∧
        (GoFigure.traceNamed r.shown "Upper Bound").map Trace.fill = some true ∧
        (GoFigure.traceNamed r.shown "Upper Bound").map Trace.x
          = (GoFigure.traceNamed r.shown "Forecast").map Trace.x ∧
        (GoFigure.traceNamed r.shown "Lower Bound").map Trace.x
          = (GoFigure.traceNamed r.shown "Forecast").map Trace.x) ∧
    (∀ r vid, plot_mpl enable_mpl forecast timestamp_col target_col var_id actual history
        (some (u, l)) true include_history figsize grid = Except.ok r →
      resolveVarId (normTargetCol target_col) var_id = Except.ok vid →
      ∃ upY lowY fx,
        u.valuesCol vid = some upY ∧ l.valuesCol vid = some lowY ∧
        r.shown.bands = [⟨fx, lowY, upY⟩] ∧
        (MplFigure.lineLabeled r.shown "Forecast").map MplLine.x = some fx) := by
  refine ⟨?_, ?_, ?_, ?_⟩
  · intro r hr
    obtain ⟨p, hp, _, _, hb⟩ := plot_plotly_ok_parts hr
    obtain ⟨ti, ta, tf, th, yt, hI, hA, hF, hH, hyt, hreq⟩ := buildPlotlyFigure_spec hb
    obtain ⟨fy, hfy, htf⟩ := forecastTrace_ok hF
    have hti0 : ti = [] := (Except.ok.inj (intervalTraces_ok_off.symm.trans hI)).symm
    subst hreq
    subst htf
    subst hti0
    simp only [shown_mk, traces_mk]
    intro t ht
    simp only [List.nil_append, List.mem_append, List.mem_singleton] at ht
    rcases ht with (hta' | htf') | hth'
    · obtain ⟨hn, hf⟩ := actualTraces_shape hA t hta'
      exact ⟨hf, by simp [hn], by simp [hn]⟩
    · subst htf'
      exact ⟨rfl, by simp, by simp⟩
    · obtain ⟨hn, hf⟩ := historyTraces_shape hH t hth'
      exact ⟨hf, by simp [hn], by simp [hn]⟩
  · intro r hr
    obtain ⟨p, hp, _, hb⟩ := plot_mpl_ok_parts hr
    obtain ⟨lh, lf, la, bs, yl, hLH, hLF, hLA, hB, hyl, hreq⟩ := buildMplFigure_spec hb
    have hbs : bs = [] := (Except.ok.inj (mplBands_ok_off.symm.trans hB)).symm
    subst hreq
    subst hbs
    rfl
  · intro r vid hr hv
    obtain ⟨p, hp, _, _, hb⟩ := plot_plotly_ok_parts hr
    unfold plotlyPrep at hp
    have hs := prepCommon_spec hp
    have hvp : vid = p.vid := Except.ok.inj (hv.symm.trans hs.1)
    subst hvp
    obtain ⟨ti, ta, tf, th, yt, hI, hA, hF, hH, hyt, hreq⟩ := buildPlotlyFigure_spec hb
    obtain ⟨lowY, upY, hl, hu, hti⟩ := intervalTraces_ok_on hI
    obtain ⟨fy, hfy, htf⟩ := forecastTrace_ok hF
    have hta' : ∀ t ∈ ta, t.name ≠ "Forecast" := by
      intro t ht
      simp [(actualTraces_shape hA t ht).1]
    subst hreq
    subst htf
    subst hti
    have hfindUB : ((([⟨ "Lower Bound", p.X_forecast, lowY, false⟩,
          ⟨ "Upper Bound", p.X_forecast, upY, true⟩] : List Trace) ++ ta
          ++ ([⟨ "Forecast", p.X_forecast, fy, false⟩] : List Trace) ++ th).find?
          (fun t => t.name == "Upper Bound"))
        = some (⟨ "Upper Bound", p.X_forecast, upY, true⟩ : Trace) := by
      simp only [List.cons_append, List.nil_append]
      rw [List.find?_cons_of_neg _ (by simp), List.find?_cons_of_pos _ (by simp)]
    have hfindLB : ((([⟨ "Lower Bound", p.X_forecast, lowY, false⟩,
          ⟨ "Upper Bound", p.X_forecast, upY, true⟩] : List Trace) ++ ta
          ++ ([⟨ "Forecast", p.X_forecast, fy, false⟩] : List Trace) ++ th).find?
          (fun t => t.name == "Lower Bound"))
        = some (⟨ "Lower Bound", p.X_forecast, lowY, false⟩ : Trace) := by
      simp only [List.cons_append, List.nil_append]
      rw [List.find?_cons_of_pos _ (by simp)]
    have hfindF : ((([⟨ "Lower Bound", p.X_forecast, lowY, false⟩,
          ⟨ "Upper Bound", p.X_forecast, upY, true⟩] : List Trace) ++ ta
          ++ ([⟨ "Forecast", p.X_forecast, fy, false⟩] : List Trace) ++ th).find?
          (fun t => t.name == "Forecast"))
        = some (⟨ "Forecast", p.X_forecast, fy, false⟩ : Trace) := by
      simp only [List.cons_append, List.nil_append]
      rw [List.find?_cons_of_neg _ (by simp), List.find?_cons_of_neg _ (by simp),
          List.append_assoc, traces_find_skip hta', List.singleton_append,
          List.find?_cons_of_pos _ (by simp)]
    refine ⟨upY, lowY, hu, hl, ?_, ?_, ?_, ?_, ?_⟩
    · simp only [shown_mk, traceNamed_mk]
      rw [hfindUB]
      rfl
    · simp only [shown_mk, traceNamed_mk]
      rw [hfindLB]
      rfl
    · simp only [shown_mk, traceNamed_mk]
      rw [hfindUB]
      rfl
    · simp only [shown_mk, traceNamed_mk]
      rw [hfindUB, hfindF]
      rfl
    · simp only [shown_mk, traceNamed_mk]
      rw [hfindLB, hfindF]
      rfl
  · intro r vid hr hv
    obtain ⟨p, hp, _, hb⟩ := plot_mpl_ok_parts hr
    unfold mplPrep at hp
    have hs := prepCommon_spec hp
    have hvp : vid = p.vid := Except.ok.inj (hv.symm.trans hs.1)
    subst hvp
    obtain ⟨lh, lf, la, bs, yl, hLH, hLF, hLA, hB, hyl, hreq⟩ := buildMplFigure_spec hb
    obtain ⟨lowY, upY, hl, hu, hbs⟩ := mplBands_ok_on hB
    obtain ⟨fy, hfy, hlf⟩ := mplForecastLine_ok hLF
    have hlh : ∀ t ∈ lh, t.label ≠ "Forecast" := by
      intro t ht
      simp [mplHistoryLines_shape hLH t ht]
    subst hreq
    subst hlf
    subst hbs
    refine ⟨upY, lowY, p.X_forecast, hu, hl, rfl, ?_⟩
    simp only [mpl_shown_mk, lineLabeled_mk]
    rw [lines_find_hit hlh rfl]
    rfl

/-- C4 witness: the concrete banded renders have upper bound `exU`, lower
bound `exL`, fill on the upper trace, the band on the forecast axis. -/
theorem claim_C4_witness :
    (GoFigure.traceNamed rC4.shown "Upper Bound").map Trace.y
      = some [11, 21, 31, 41, 51] ∧
    (GoFigure.traceNamed rC4.shown "Lower Bound").map Trace.y
      = some [9, 19, 29, 39, 49] ∧
    (GoFigure.traceNamed rC4.shown "Upper Bound").map Trace.fill = some true ∧
    (GoFigure.traceNamed rC4.shown "Upper Bound").map Trace.x
      = (GoFigure.traceNamed rC4.shown "Forecast").map Trace.x ∧
    rC4m.shown.bands = [⟨tb_arange 0 exF.len, [9, 19, 29, 39, 49], [11, 21, 31, 41, 51]⟩] := by
  have h := claim_C4 true true exF (ColSpec.one "ts") (ColSpec.one "y") (VarId.idx 0)
    none none exU exL false none true
  obtain ⟨upY, lowY, hu, hl, hy1, hy2, hfl, hx1, _⟩ := h.2.2.1 rC4 0 rfl rfl
  obtain ⟨upY2, lowY2, fx, hu2, hl2, hb2, hx2⟩ := h.2.2.2 rC4m 0 rfl rfl
  have hupY : upY = [11, 21, 31, 41, 51] := (Option.some.inj ((show exU.valuesCol 0
      = some [11, 21, 31, 41, 51] from rfl).symm.trans hu)).symm
  have hlowY : lowY = [9, 19, 29, 39, 49] := (Option.some.inj ((show exL.valuesCol 0
      = some [9, 19, 29, 39, 49] from rfl).symm.trans hl)).symm
  have hupY2 : upY2 = [11, 21, 31, 41, 51] := (Option.some.inj ((show exU.valuesCol 0
      = some [11, 21, 31, 41, 51] from rfl).symm.trans hu2)).symm
  have hlowY2 : lowY2 = [9, 19, 29, 39, 49] := (Option.some.inj ((show exL.valuesCol 0
      = some [9, 19, 29, 39, 49] from rfl).symm.trans hl2)).symm
  have hfx : fx = tb_arange 0 exF.len := by
    have : (MplFigure.lineLabeled rC4m.shown "Forecast").map MplLine.x
        = some (tb_arange 0 exF.len) := rfl
    exact Option.some.inj (hx2.symm.trans this)
  subst hupY
  subst hlowY
  subst hupY2
  subst hlowY2
  subst hfx
  exact ⟨hy1, hy2, hfl, hx1, hb2⟩

/-- C6: in the interactive renderer, when a history table is supplied with
`include_history=True` and the timestamp column is present in the forecast
table, the boundary marker equals the last value of the history table's
timestamp column (`history[timestamp_col].iloc[-1]`) and a vertical reference
line plus an `Observed End Date` marker are drawn at that x position; in
timestamp-free mode no boundary marker exists (`train_end_date` is `None`) and
neither shape nor marker is drawn. -/
theorem claim_C6 (enable_mpl enable_plotly : Bool) (forecast : DF)
    (timestamp_col target_col : ColSpec) (var_id : VarId) (actual : Option DF)
    (forecast_interval : Option (DF × DF)) (show_forecast_interval : Bool) (tsc : String)
    (hts : normTimestampCol timestamp_col = Except.ok tsc) :
    (∀ hdf r, (tb_columns_values forecast).contains tsc = true →
      plot_plotly enable_mpl enable_plotly forecast timestamp_col target_col var_id actual
        (some hdf) forecast_interval show_forecast_interval true = Except.ok r →
      ∃ tsvals d, hdf.col tsc = some tsvals ∧ tsvals.getLast? = some d ∧
        r.shown.shapes = [⟨d⟩] ∧ r.shown.annots = [⟨d, "Observed End Date"⟩]) ∧
    (∀ history include_history r, (tb_columns_values forecast).contains tsc = false →
      plot_plotly enable_mpl enable_plotly forecast timestamp_col target_col var_id actual
        history forecast_interval show_forecast_interval include_history = Except.ok r →
      r.shown.shapes = [] ∧ r.shown.annots = [] ∧
      (∀ q hq, plotlyPrep forecast timestamp_col target_col var_id actual history
          include_history = Except.ok q → q.hist = some hq →
        hq.train_end_date = none)) := by
  constructor
  · intro hdf r hpres hr
    obtain ⟨p, hp, _, _, hb⟩ := plot_plotly_ok_parts hr
    unfold plotlyPrep at hp
    have hs := prepCommon_spec hp
    have htsc : p.tsc = tsc := (Except.ok.inj (hts.symm.trans hs.2.1)).symm
    have hfree2 : p.ts_free = false := by
      rw [hs.2.2.2.1, htsc, hpres]
      rfl
    have hax := prepAxes_spec hs.2.2.2.2.2.2
    obtain ⟨h_ts, ytr, hcol, hwt, _⟩ := (hax.2 hdf rfl rfl).2 hfree2
    obtain ⟨d, hd, hhist⟩ := hwt rfl
    obtain ⟨ti, ta, tf, th, yt, hI, hA, hF, hH, hyt, hreq⟩ := buildPlotlyFigure_spec hb
    subst hreq
    rw [htsc] at hcol
    refine ⟨h_ts, d, hcol, hd, ?_, ?_⟩
    · simp only [shown_mk, shapes_mk]
      rw [refLineParts_eq_on hhist rfl]
    · simp only [shown_mk, annots_mk]
      rw [refLineParts_eq_on hhist rfl]
  · intro history include_history r hfree hr
    obtain ⟨p, hp, _, _, hb⟩ := plot_plotly_ok_parts hr
    unfold plotlyPrep at hp
    have hs := prepCommon_spec hp
    have htsc : p.tsc = tsc := (Except.ok.inj (hts.symm.trans hs.2.1)).symm
    have hfree2 : p.ts_free = true := by
      rw [hs.2.2.2.1, htsc, hfree]
      rfl
    have hax := prepAxes_spec hs.2.2.2.2.2.2
    have hhist : p.hist = none ∨
        ∃ hp2, p.hist = some hp2 ∧ hp2.train_end_date = none := by
      cases history with
      | none => exact Or.inl (hax.1 (Or.inl rfl)).1
      | some hdf =>
        cases include_history with
        | false => exact Or.inl (hax.1 (Or.inr rfl)).1
        | true =>
          obtain ⟨ytr, hres⟩ := (hax.2 hdf rfl rfl).1 hfree2
          exact Or.inr ⟨_, congrArg Prod.fst hres, rfl⟩
    have hrl : refLineParts p include_history = ([], []) := by
      rcases hhist with hh | ⟨hp2, hh, hted⟩
      · exact refLineParts_eq_none hh
      · exact refLineParts_eq_no_ted hh hted
    obtain ⟨ti, ta, tf, th, yt, hI, hA, hF, hH, hyt, hreq⟩ := buildPlotlyFigure_spec hb
    subst hreq
    refine ⟨?_, ?_, ?_⟩
    · simp only [shown_mk, shapes_mk]
      rw [hrl]
    · simp only [shown_mk, annots_mk]
      rw [hrl]
    · intro q hq hpp hh2
      unfold plotlyPrep at hpp
      have hpe : p = q := Except.ok.inj (hp.symm.trans hpp)
      subst hpe
      rcases hhist with hh | ⟨hp2, hh, hted⟩
      · rw [hh] at hh2
        exact Option.noConfusion hh2
      · rw [hh] at hh2
        rw [← Option.some.inj hh2]
        exact hted

/-- C6 witness: with `ts` present, 3-row history ending at timestamp 92 and
history included, the reference line and the marker sit at 92; the
timestamp-free run of C1 has no shapes and no markers. -/
theorem claim_C6_witness :
    rC6.shown.shapes = [⟨92⟩] ∧
    rC6.shown.annots = [⟨92, "Observed End Date"⟩] ∧
    rC1.shown.shapes = [] ∧
    rC1.shown.annots = [] := by
  have h := claim_C6 true true exFts (ColSpec.one "ts") (ColSpec.one "y") (VarId.idx 0)
    none none false "ts" rfl
  obtain ⟨tsvals, d, hcol, hd, hsh, han⟩ := h.1 exHts rC6 rfl rfl
  have htsvals : tsvals = [90, 91, 92] :=
    (Option.some.inj ((show exHts.col "ts" = some [90, 91, 92] from rfl).symm.trans
      hcol)).symm
  subst htsvals
  have hd92 : d = 92 := (Option.some.inj ((show ([90, 91, 92] : List Int).getLast?
      = some 92 from rfl).symm.trans hd)).symm
  subst hd92
  have h2 := claim_C6 true true exF (ColSpec.one "ts") (ColSpec.one "y") (VarId.idx 0)
    none none false "ts" rfl
  obtain ⟨hsh1, han1, _⟩ := h2.2 (some exH) true rC1 rfl rfl
  exact ⟨hsh, han, hsh1, han1⟩
